import Mathlib

/-!
Verification of the `Click` event model from
`src/clients/python-sdk/trieve_py_client/models/click.py`.

The Python class is a pydantic `BaseModel` with six fields.  We embed it
shallowly: JSON-compatible values become the inductive `JValue`, Python
dicts become ordered association lists (Python dicts preserve insertion
order), and pydantic's `model_fields_set` tracking of optional fields is
embedded as `Option (Option α)`:

  * `none`              — the field was never supplied (not in `model_fields_set`);
  * `some none`         — the field was explicitly supplied as `None`;
  * `some (some v)`     — the field was supplied with value `v`.

These are exactly the reachable states of an optional pydantic field,
since a field is added to `model_fields_set` precisely when it is
supplied at construction or assigned afterwards.

Fallible operations return `Except (List String) _`; the list entries
model the individual field errors that pydantic collects into one
`ValidationError`, each prefixed with the offending field's name
(pydantic's error `loc`).  The exact English of the messages is
abbreviated, except for the enum-validator message which is the literal
string raised in the source.
-/

namespace Trieve

/-- JSON-compatible values as exchanged by the model: null, booleans,
strings and objects (the `Click` wire shape uses no arrays or numbers;
nested records are opaque objects). Objects are ordered association
lists, matching Python dict semantics. -/
inductive JValue where
  | null : JValue
  | bool : Bool → JValue
  | str : String → JValue
  | obj : List (String × JValue) → JValue

mutual

/-- Decidable equality on `JValue`, by hand because the automatic
derivation does not support the nested occurrence in `obj`. -/
def JValue.decEq : (a b : JValue) → Decidable (a = b)
  | JValue.null, JValue.null => isTrue rfl
  | JValue.null, JValue.bool _ => isFalse (fun h => JValue.noConfusion h)
  | JValue.null, JValue.str _ => isFalse (fun h => JValue.noConfusion h)
  | JValue.null, JValue.obj _ => isFalse (fun h => JValue.noConfusion h)
  | JValue.bool _, JValue.null => isFalse (fun h => JValue.noConfusion h)
  | JValue.bool a, JValue.bool b =>
    if h : a = b then isTrue (by rw [h])
    else isFalse (fun hh => h (by injection hh))
  | JValue.bool _, JValue.str _ => isFalse (fun h => JValue.noConfusion h)
  | JValue.bool _, JValue.obj _ => isFalse (fun h => JValue.noConfusion h)
  | JValue.str _, JValue.null => isFalse (fun h => JValue.noConfusion h)
  | JValue.str _, JValue.bool _ => isFalse (fun h => JValue.noConfusion h)
  | JValue.str a, JValue.str b =>
    if h : a = b then isTrue (by rw [h])
    else isFalse (fun hh => h (by injection hh))
  | JValue.str _, JValue.obj _ => isFalse (fun h => JValue.noConfusion h)
  | JValue.obj _, JValue.null => isFalse (fun h => JValue.noConfusion h)
  | JValue.obj _, JValue.bool _ => isFalse (fun h => JValue.noConfusion h)
  | JValue.obj _, JValue.str _ => isFalse (fun h => JValue.noConfusion h)
  | JValue.obj a, JValue.obj b =>
    match JValue.decEqFields a b with
    | isTrue h => isTrue (by rw [h])
    | isFalse h => isFalse (fun hh => h (by injection hh))

/-- Decidable equality on object field lists. -/
def JValue.decEqFields : (a b : List (String × JValue)) → Decidable (a = b)
  | [], [] => isTrue rfl
  | [], _ :: _ => isFalse (fun h => List.noConfusion h)
  | _ :: _, [] => isFalse (fun h => List.noConfusion h)
  | (k, v) :: r, (k2, v2) :: r2 =>
    if hk : k = k2 then
      match JValue.decEq v v2 with
      | isTrue hv =>
        match JValue.decEqFields r r2 with
        | isTrue hr => isTrue (by rw [hk, hv, hr])
        | isFalse hr => isFalse (fun h => by
            simp only [List.cons.injEq, Prod.mk.injEq] at h
            exact hr h.2)
      | isFalse hv => isFalse (fun h => by
          simp only [List.cons.injEq, Prod.mk.injEq] at h
          exact hv h.1.2)
    else
      isFalse (fun h => by
        simp only [List.cons.injEq, Prod.mk.injEq] at h
        exact hk h.1.1)

end

instance : DecidableEq JValue := JValue.decEq

/-- Decidable equality of `Except` results, for concrete evaluation of
the fallible operations. -/
def exceptDecEq {ε α : Type} [DecidableEq ε] [DecidableEq α] :
    (a b : Except ε α) → Decidable (a = b)
  | Except.ok a, Except.ok b =>
    if h : a = b then isTrue (by rw [h])
    else isFalse (fun hh => h (Except.ok.inj hh))
  | Except.error a, Except.error b =>
    if h : a = b then isTrue (by rw [h])
    else isFalse (fun hh => h (Except.error.inj hh))
  | Except.ok _, Except.error _ => isFalse (fun h => Except.noConfusion h)
  | Except.error _, Except.ok _ => isFalse (fun h => Except.noConfusion h)

instance {ε α : Type} [DecidableEq ε] [DecidableEq α] : DecidableEq (Except ε α) :=
  exceptDecEq

/-- Lookup in a Python dict: first binding of the key. -/
def dget : List (String × JValue) → String → Option JValue
  | [], _ => none
  | (k, v) :: rest, key => if k = key then some v else dget rest key

/-- Python dict item assignment `d[key] = val`: replaces the binding in
place when the key is present, otherwise appends at the end (insertion
order). -/
def dset : List (String × JValue) → String → JValue → List (String × JValue)
  | [], key, val => [(key, val)]
  | (k, v) :: rest, key, val =>
    if k = key then (key, val) :: rest else (k, v) :: dset rest key val

/-- Python `obj.get(key)`: `None` both when the key is absent and when it
is bound to JSON null (JSON null parses to Python `None`). -/
def pyGet (d : List (String × JValue)) (key : String) : Option JValue :=
  match dget d key with
  | some JValue.null => none
  | r => r

/-- Modelled from the spec: `ChunkWithPosition` is an external
collaborator (its source is not part of this fragment) exposing the
generic `to_dict`/`from_dict` contract.  It is embedded as an opaque
record carrying its own dict representation. -/
structure ChunkWithPosition where
  data : List (String × JValue)
deriving DecidableEq

/-- Modelled from the spec: dictionary representation of a
`ChunkWithPosition`. -/
def ChunkWithPosition.to_dict (c : ChunkWithPosition) : JValue :=
  JValue.obj c.data

/-- Modelled from the spec: `from_dict(mapping) -> instance | absent`.
`None` input yields no value, a mapping yields an instance, and any
other representation is a validation error. -/
def ChunkWithPosition.from_dict : JValue → Except (List String) (Option ChunkWithPosition)
  | JValue.null => Except.ok none
  | JValue.obj d => Except.ok (some ⟨d⟩)
  | _ => Except.error ["clicked_items: value is not a valid dict"]

/-- Modelled from the spec: `RequestInfo` is an external collaborator
with the same `to_dict`/`from_dict` contract as `ChunkWithPosition`. -/
structure RequestInfo where
  data : List (String × JValue)
deriving DecidableEq

/-- Modelled from the spec: dictionary representation of a
`RequestInfo`. -/
def RequestInfo.to_dict (r : RequestInfo) : JValue :=
  JValue.obj r.data

/-- Modelled from the spec: `from_dict(mapping) -> instance | absent`
for `RequestInfo`. -/
def RequestInfo.from_dict : JValue → Except (List String) (Option RequestInfo)
  | JValue.null => Except.ok none
  | JValue.obj d => Except.ok (some ⟨d⟩)
  | _ => Except.error ["request: value is not a valid dict"]

/-- The `Click` record.  Required fields carry their value directly;
each optional field is `Option (Option _)` recording the tri-state
explained in the module docstring. -/
structure Click where
  clicked_items : ChunkWithPosition
  event_name : String
  event_type : String
  is_conversion : Option (Option Bool)
  request : Option (Option RequestInfo)
  user_id : Option (Option String)
deriving DecidableEq

/-- Single quote character, used inside error-message literals. -/
def sq : String := String.singleton (Char.ofNat 39)

/-- The literal message of the `ValueError` raised by
`event_type_validate_enum`: `must be one of enum values ('click')`. -/
def Click.enumErrMsg : String :=
  "must be one of enum values (" ++ sq ++ "click" ++ sq ++ ")"

/-- Attaches the offending field name to a message, modelling the `loc`
pydantic records on each collected error. -/
def fieldErr (field msg : String) : String := field ++ ": " ++ msg

/-- The `@field_validator('event_type')` from the source: accepts the
value when it lies in `set(['click'])` and raises
`ValueError("must be one of enum values ('click')")` otherwise. -/
def Click.event_type_validate_enum (value : String) : Except String String :=
  if ["click"].contains value then Except.ok value
  else Except.error Click.enumErrMsg

/-- Message used when a strict string field receives a non-string. -/
def strRequiredMsg : String := "Input should be a valid string"

/-- Message used when a strict boolean field receives a non-boolean. -/
def boolRequiredMsg : String := "Input should be a valid boolean"

/-- Message used when a required nested-model field receives `None`. -/
def noneNotAllowedMsg : String := "none is not an allowed value"

/-- Validation of the required `clicked_items` entry of the mapping
passed to `model_validate` inside `from_dict` (the entry is an already
constructed instance or `None`; `None` is rejected since the field is
required). -/
def vReqChunk : Option ChunkWithPosition → Except String ChunkWithPosition
  | some c => Except.ok c
  | none => Except.error (fieldErr "clicked_items" noneNotAllowedMsg)

/-- Validation of a required `StrictStr` field. -/
def vStr (field : String) : Option JValue → Except String String
  | some (JValue.str s) => Except.ok s
  | _ => Except.error (fieldErr field strRequiredMsg)

/-- Validation of `event_type`: the `StrictStr` shape check followed by
the enum field validator. -/
def vEventType : Option JValue → Except String String
  | some (JValue.str s) =>
    match Click.event_type_validate_enum s with
    | Except.ok t => Except.ok t
    | Except.error e => Except.error (fieldErr "event_type" e)
  | _ => Except.error (fieldErr "event_type" strRequiredMsg)

/-- Validation of the optional `StrictBool` field `is_conversion`:
`None` is accepted (nullable), a boolean is accepted, anything else is
rejected. -/
def vOptBool (field : String) : Option JValue → Except String (Option Bool)
  | none => Except.ok none
  | some (JValue.bool b) => Except.ok (some b)
  | some _ => Except.error (fieldErr field boolRequiredMsg)

/-- Validation of an optional `StrictStr` field. -/
def vOptStr (field : String) : Option JValue → Except String (Option String)
  | none => Except.ok none
  | some (JValue.str s) => Except.ok (some s)
  | some _ => Except.error (fieldErr field strRequiredMsg)

/-- Error list of one field validation result. -/
def errsOf {α : Type} : Except String α → List String
  | Except.ok _ => []
  | Except.error e => [e]

/-- The `cls.model_validate({...})` call inside `from_dict`.  Its
argument dict contains all six keys, so every field — including each
optional one — lands in `model_fields_set` of the result: the tri-state
components of the record built here are always `some _`.  Field errors
are collected in field order, as pydantic reports them. -/
def Click.model_validate_full (ci : Option ChunkWithPosition)
    (en et ic ui : Option JValue) (rq : Option RequestInfo) :
    Except (List String) Click :=
  match vReqChunk ci, vStr "event_name" en, vEventType et,
        vOptBool "is_conversion" ic, vOptStr "user_id" ui with
  | Except.ok a, Except.ok b, Except.ok t, Except.ok d, Except.ok e =>
    Except.ok ⟨a, b, t, some d, some rq, some e⟩
  | ra, rb, rt, rd, re =>
    Except.error (errsOf ra ++ errsOf rb ++ errsOf rt ++ errsOf rd ++ errsOf re)

/-- Direct keyword construction `Click(...)`.  The Lean types already
enforce the strict shape checks, so only the `event_type` enum
validator can fail; omitted optional keyword arguments are the outer
`none` (not in `model_fields_set`). -/
def Click.construct (clicked_items : ChunkWithPosition) (event_name : String)
    (event_type : String) (is_conversion : Option (Option Bool))
    (request : Option (Option RequestInfo)) (user_id : Option (Option String)) :
    Except (List String) Click :=
  match Click.event_type_validate_enum event_type with
  | Except.ok et =>
    Except.ok ⟨clicked_items, event_name, et, is_conversion, request, user_id⟩
  | Except.error e => Except.error [fieldErr "event_type" e]

/-- The `to_dict` method, mirroring the source step by step: a
`model_dump(by_alias=True, exclude_none=True)` base dict, the
`clicked_items` and `request` overrides with the nested `to_dict`
results, then the three explicit-null insertions for nullable fields
that are `None` but tracked in `model_fields_set`. -/
def Click.to_dict (c : Click) : List (String × JValue) :=
  let base : List (String × JValue) :=
    [("clicked_items", JValue.obj c.clicked_items.data),
     ("event_name", JValue.str c.event_name),
     ("event_type", JValue.str c.event_type)]
    ++ (match c.is_conversion with
        | some (some b) => [("is_conversion", JValue.bool b)]
        | _ => [])
    ++ (match c.request with
        | some (some r) => [("request", JValue.obj r.data)]
        | _ => [])
    ++ (match c.user_id with
        | some (some s) => [("user_id", JValue.str s)]
        | _ => [])
  let d1 := dset base "clicked_items" c.clicked_items.to_dict
  let d2 := match c.request with
            | some (some r) => dset d1 "request" r.to_dict
            | _ => d1
  let d3 := if c.is_conversion = some none then dset d2 "is_conversion" JValue.null else d2
  let d4 := if c.request = some none then dset d3 "request" JValue.null else d3
  if c.user_id = some none then dset d4 "user_id" JValue.null else d4

/-- Error used for a top-level `from_dict` input that is neither `None`
nor a dict (pydantic `model_validate` pass-through of a value that is
not an instance fails; instances themselves are outside the `JValue`
universe). -/
def Click.notDictErr : String := "Click: input is neither None nor a dict"

/-- The classmethod `from_dict`.  `None` yields no value; a dict is
turned into the six-key mapping of the source (nested `from_dict`
conversions first, which may fail on their own) and passed to
`model_validate`; a JSON-null stands for the same Python `None`. -/
def Click.from_dict : Option JValue → Except (List String) (Option Click)
  | none => Except.ok none
  | some JValue.null => Except.ok none
  | some (JValue.obj d) =>
    match (match pyGet d "clicked_items" with
           | some v => ChunkWithPosition.from_dict v
           | none => Except.ok none) with
    | Except.error e => Except.error e
    | Except.ok ci =>
      match (match pyGet d "request" with
             | some v => RequestInfo.from_dict v
             | none => Except.ok none) with
      | Except.error e => Except.error e
      | Except.ok rqOpt =>
        match Click.model_validate_full ci (pyGet d "event_name")
                (pyGet d "event_type") (pyGet d "is_conversion")
                (pyGet d "user_id") rqOpt with
        | Except.error e => Except.error e
        | Except.ok c => Except.ok (some c)
  | some (JValue.bool _) => Except.error [Click.notDictErr]
  | some (JValue.str _) => Except.error [Click.notDictErr]

/-- Escaping of one character inside a JSON string literal, as
`json.dumps` does it (quote and backslash; the model strings carry no
control characters). -/
def jsonEscapeChar (c : Char) : String :=
  if c = Char.ofNat 34 then "\\\""
  else if c = Char.ofNat 92 then "\\\\"
  else String.singleton c

/-- Escaping of a whole string for a JSON text literal. -/
def jsonEscape (s : String) : String :=
  String.join (s.data.map jsonEscapeChar)

mutual

/-- Modelled from the spec: the JSON text serializer (`json.dumps`)
applied to a generic mapping, with the default separators
of the Python library. -/
def JValue.dumps : JValue → String
  | JValue.null => "null"
  | JValue.bool b => if b then "true" else "false"
  | JValue.str s => "\"" ++ jsonEscape s ++ "\""
  | JValue.obj fs => "\x7b" ++ String.intercalate ", " (JValue.dumpEntries fs) ++ "\x7d"

/-- The serialized `"key": value` entries of an object, in order. -/
def JValue.dumpEntries : List (String × JValue) → List String
  | [] => []
  | (k, v) :: rest =>
    ("\"" ++ jsonEscape k ++ "\": " ++ JValue.dumps v) :: JValue.dumpEntries rest

end

/-- The `to_json` method: `json.dumps(self.to_dict())`. -/
def Click.to_json (c : Click) : String :=
  JValue.dumps (JValue.obj (Click.to_dict c))

mutual

/-- Python `repr` of a JSON-compatible value (`None`, `True`/`False`,
single-quoted strings, brace-delimited dicts).  Used to model
`pprint.pformat`; the `Click` dump fits on one line with its keys
already in sorted order, so `pformat` prints exactly this `repr`. -/
def pyrepr : JValue → String
  | JValue.null => "None"
  | JValue.bool b => if b then "True" else "False"
  | JValue.str s => sq ++ s ++ sq
  | JValue.obj fs => "\x7b" ++ String.intercalate ", " (pyreprEntries fs) ++ "\x7d"

/-- The `repr` entries `'key': value` of a dict, in order. -/
def pyreprEntries : List (String × JValue) → List String
  | [] => []
  | (k, v) :: rest => (sq ++ k ++ sq ++ ": " ++ pyrepr v) :: pyreprEntries rest

end

/-- Modelled from the spec: `pprint.pformat` of a generic mapping, the
pretty-printer used by `to_str`. -/
def pformat (v : JValue) : String := pyrepr v

/-- Pydantic `model_dump(by_alias=True)` without `exclude_none` or
`exclude_unset`: every one of the six fields appears, optional fields
that hold no value (unset or explicitly null alike) appear as null, and
nested models are dumped through their generic dict representation. -/
def Click.model_dump_by_alias (c : Click) : List (String × JValue) :=
  [("clicked_items", JValue.obj c.clicked_items.data),
   ("event_name", JValue.str c.event_name),
   ("event_type", JValue.str c.event_type),
   ("is_conversion", match c.is_conversion with
                     | some (some b) => JValue.bool b
                     | _ => JValue.null),
   ("request", match c.request with
               | some (some r) => JValue.obj r.data
               | _ => JValue.null),
   ("user_id", match c.user_id with
               | some (some s) => JValue.str s
               | _ => JValue.null)]

/-- The `to_str` method: `pprint.pformat(self.model_dump(by_alias=True))`.
Note that it dumps the full field mapping, not the `to_dict` mapping. -/
def Click.to_str (c : Click) : String :=
  pformat (JValue.obj (Click.model_dump_by_alias c))

/-- Drops leading JSON whitespace. -/
def skipWs : List Char → List Char
  | c :: rest =>
    if c = ' ' ∨ c = Char.ofNat 10 ∨ c = Char.ofNat 9 ∨ c = Char.ofNat 13
    then skipWs rest else c :: rest
  | [] => []

/-- Consumes an expected literal character sequence. -/
def expectChars : List Char → List Char → Option (List Char)
  | [], cs => some cs
  | _ :: _, [] => none
  | e :: es, c :: cs => if c = e then expectChars es cs else none

/-- Reads the body of a JSON string up to the closing quote (the model
exchanges plain strings, so escape sequences are not interpreted). -/
def readStringBody : List Char → Option (String × List Char)
  | [] => none
  | c :: rest =>
    if c = Char.ofNat 34 then some ("", rest)
    else match readStringBody rest with
         | some (s, r) => some (String.singleton c ++ s, r)
         | none => none

mutual

/-- Modelled from the spec: one parsing step of the underlying JSON
text parser (`json.loads`), over the grammar fragment the `Click` wire
shape uses (null, booleans, strings, objects).  The fuel argument only
bounds recursion depth; it is at least the input length at top level,
which one value can never exhaust. -/
def parseVal : Nat → List Char → Except String (JValue × List Char)
  | 0, _ => Except.error "json_loads: input too deeply nested"
  | Nat.succ fuel, cs =>
    match skipWs cs with
    | [] => Except.error "json_loads: unexpected end of input"
    | c :: rest =>
      if c = 'n' then
        match expectChars ['u', 'l', 'l'] rest with
        | some r => Except.ok (JValue.null, r)
        | none => Except.error "json_loads: invalid literal"
      else if c = 't' then
        match expectChars ['r', 'u', 'e'] rest with
        | some r => Except.ok (JValue.bool true, r)
        | none => Except.error "json_loads: invalid literal"
      else if c = 'f' then
        match expectChars ['a', 'l', 's', 'e'] rest with
        | some r => Except.ok (JValue.bool false, r)
        | none => Except.error "json_loads: invalid literal"
      else if c = Char.ofNat 34 then
        match readStringBody rest with
        | some (s, r) => Except.ok (JValue.str s, r)
        | none => Except.error "json_loads: unterminated string"
      else if c = Char.ofNat 123 then
        match skipWs rest with
        | c2 :: rest2 =>
          if c2 = Char.ofNat 125 then Except.ok (JValue.obj [], rest2)
          else match parseEntries fuel (c2 :: rest2) with
               | Except.ok (fs, r) => Except.ok (JValue.obj fs, r)
               | Except.error e => Except.error e
        | [] => Except.error "json_loads: unexpected end of input"
      else Except.error "json_loads: invalid literal"

/-- Parses the non-empty `"key": value, ...` entry list of an object,
including the closing brace. -/
def parseEntries : Nat → List Char → Except String (List (String × JValue) × List Char)
  | 0, _ => Except.error "json_loads: input too deeply nested"
  | Nat.succ fuel, cs =>
    match skipWs cs with
    | c :: rest =>
      if c = Char.ofNat 34 then
        match readStringBody rest with
        | some (k, r) =>
          match skipWs r with
          | c2 :: r2 =>
            if c2 = ':' then
              match parseVal fuel r2 with
              | Except.ok (v, r3) =>
                match skipWs r3 with
                | c3 :: r4 =>
                  if c3 = ',' then
                    match parseEntries fuel r4 with
                    | Except.ok (fs, r5) => Except.ok ((k, v) :: fs, r5)
                    | Except.error e => Except.error e
                  else if c3 = Char.ofNat 125 then Except.ok ([(k, v)], r4)
                  else Except.error "json_loads: expected comma or end of object"
                | [] => Except.error "json_loads: unexpected end of input"
              | Except.error e => Except.error e
            else Except.error "json_loads: expected colon"
          | [] => Except.error "json_loads: unexpected end of input"
        | none => Except.error "json_loads: unterminated string"
      else Except.error "json_loads: expected property name"
    | [] => Except.error "json_loads: unexpected end of input"

end

/-- Modelled from the spec: the underlying JSON text parser
(`json.loads`).  Malformed text is a parse error; well-formed text
yields the generic value, with nothing left but whitespace. -/
def json_loads (s : String) : Except String JValue :=
  match parseVal (s.length + 1) s.data with
  | Except.error e => Except.error e
  | Except.ok (v, rest) =>
    match skipWs rest with
    | [] => Except.ok v
    | _ => Except.error "json_loads: extra data"

/-- The classmethod `from_json`: `cls.from_dict(json.loads(json_str))`.
A parse error propagates; a parsed JSON null is the Python `None`
handed to `from_dict`. -/
def Click.from_json (s : String) : Except (List String) (Option Click) :=
  match json_loads s with
  | Except.error e => Except.error [e]
  | Except.ok v => Click.from_dict (some v)

/-- Field reassignment `instance.event_type = v` under
`validate_assignment=True`: the enum validator runs again and a
violation leaves no updated record. -/
def Click.set_event_type (c : Click) (v : String) : Except (List String) Click :=
  match Click.event_type_validate_enum v with
  | Except.ok et => Except.ok { c with event_type := et }
  | Except.error e => Except.error [fieldErr "event_type" e]

/-- Reassignment of `event_name` (type-correct by the Lean type). -/
def Click.set_event_name (c : Click) (v : String) : Click :=
  { c with event_name := v }

/-- Reassignment of `clicked_items`. -/
def Click.set_clicked_items (c : Click) (v : ChunkWithPosition) : Click :=
  { c with clicked_items := v }

/-- Reassignment of `is_conversion`; assignment always records the
field in `model_fields_set`. -/
def Click.set_is_conversion (c : Click) (v : Option Bool) : Click :=
  { c with is_conversion := some v }

/-- Reassignment of `request`. -/
def Click.set_request (c : Click) (v : Option RequestInfo) : Click :=
  { c with request := some v }

/-- Reassignment of `user_id`. -/
def Click.set_user_id (c : Click) (v : Option String) : Click :=
  { c with user_id := some v }

/-- The `Click` instances reachable through the public operations:
construction (direct, from a dict, from JSON text) and the supported
field reassignments. -/
inductive Click.Reachable : Click → Prop where
  | construct : ∀ ci en et ic rq ui c,
      Click.construct ci en et ic rq ui = Except.ok c → Click.Reachable c
  | from_dict : ∀ o c,
      Click.from_dict o = Except.ok (some c) → Click.Reachable c
  | from_json : ∀ s c,
      Click.from_json s = Except.ok (some c) → Click.Reachable c
  | set_event_type : ∀ c v c2, Click.Reachable c →
      Click.set_event_type c v = Except.ok c2 → Click.Reachable c2
  | set_event_name : ∀ c v, Click.Reachable c →
      Click.Reachable (Click.set_event_name c v)
  | set_clicked_items : ∀ c v, Click.Reachable c →
      Click.Reachable (Click.set_clicked_items c v)
  | set_is_conversion : ∀ c v, Click.Reachable c →
      Click.Reachable (Click.set_is_conversion c v)
  | set_request : ∀ c v, Click.Reachable c →
      Click.Reachable (Click.set_request c v)
  | set_user_id : ∀ c v, Click.Reachable c →
      Click.Reachable (Click.set_user_id c v)

/-- A concrete nested `ChunkWithPosition` used as test data. -/
def exChunk : ChunkWithPosition :=
  ⟨[("chunk", JValue.str "c1"), ("position", JValue.bool true)]⟩

/-- A concrete nested `RequestInfo` used as test data. -/
def exReq : RequestInfo := ⟨[("pages", JValue.bool false)]⟩

/-- A valid `Click` whose three optional fields were never supplied. -/
def exUnset : Click := ⟨exChunk, "search_click", "click", none, none, none⟩

/-- A valid `Click` whose three optional fields were each explicitly
supplied as null. -/
def exAllNull : Click :=
  ⟨exChunk, "search_click", "click", some none, some none, some none⟩

/-- A valid `Click` whose three optional fields all hold concrete
values. -/
def exVals : Click :=
  ⟨exChunk, "e2", "click", some (some true), some (some exReq), some (some "u1")⟩

/-- A concrete input dict for `from_dict` carrying only the three
required keys. -/
def exDict : List (String × JValue) :=
  [("clicked_items", JValue.obj exChunk.data),
   ("event_name", JValue.str "e"),
   ("event_type", JValue.str "click")]

/-- The record `from_dict exDict` produces: every optional field comes
out explicitly set to null. -/
def exFromDict : Click := ⟨exChunk, "e", "click", some none, some none, some none⟩

theorem Click.enum_ok {v t : String}
    (h : Click.event_type_validate_enum v = Except.ok t) : t = "click" := by
  unfold Click.event_type_validate_enum at h
  split at h
  · rename_i hc
    have hv := Except.ok.inj h
    subst hv
    simpa using hc
  · exact absurd h (by simp)

theorem vEventType_ok {v : Option JValue} {t : String}
    (h : vEventType v = Except.ok t) : t = "click" := by
  unfold vEventType at h
  split at h
  · split at h
    · rename_i henum
      have hv := Except.ok.inj h
      subst hv
      exact Click.enum_ok henum
    · exact absurd h (by simp)
  · exact absurd h (by simp)

theorem Click.mvf_ok {ci : Option ChunkWithPosition} {en et ic ui : Option JValue}
    {rq : Option RequestInfo} {c : Click}
    (h : Click.model_validate_full ci en et ic ui rq = Except.ok c) :
    c.event_type = "click" ∧ c.request = some rq
    ∧ (∃ v, c.is_conversion = some v) ∧ (∃ v, c.user_id = some v)
    ∧ (ic = none → c.is_conversion = some none)
    ∧ (ui = none → c.user_id = some none) := by
  unfold Click.model_validate_full at h
  split at h
  · rename_i a b t d e h1 h2 h3 h4 h5
    have hc := Except.ok.inj h
    subst hc
    refine ⟨vEventType_ok h3, rfl, ⟨d, rfl⟩, ⟨e, rfl⟩, ?_, ?_⟩
    · intro hic
      subst hic
      have hd : d = none := by simpa [vOptBool] using h4.symm
      rw [hd]
    · intro hui
      subst hui
      have he : e = none := by simpa [vOptStr] using h5.symm
      rw [he]
  · exact absurd h (by simp)

theorem Click.from_dict_obj_inv {d : List (String × JValue)} {c : Click}
    (h : Click.from_dict (some (JValue.obj d)) = Except.ok (some c)) :
    ∃ ci rqOpt, (pyGet d "request" = none → rqOpt = none)
      ∧ Click.model_validate_full ci (pyGet d "event_name") (pyGet d "event_type")
          (pyGet d "is_conversion") (pyGet d "user_id") rqOpt = Except.ok c := by
  simp only [Click.from_dict] at h
  split at h
  · exact absurd h (by simp)
  · rename_i ci hci
    split at h
    · exact absurd h (by simp)
    · rename_i rqOpt hrq
      split at h
      · exact absurd h (by simp)
      · rename_i c0 hmvf
        have hc := Option.some.inj (Except.ok.inj h)
        subst hc
        refine ⟨ci, rqOpt, ?_, hmvf⟩
        intro hn
        rw [hn] at hrq
        exact (Except.ok.inj hrq).symm

theorem Click.from_dict_ok_et {o : Option JValue} {c : Click}
    (h : Click.from_dict o = Except.ok (some c)) : c.event_type = "click" := by
  match o with
  | none => simp [Click.from_dict] at h
  | some JValue.null => simp [Click.from_dict] at h
  | some (JValue.bool b) => simp [Click.from_dict] at h
  | some (JValue.str s) => simp [Click.from_dict] at h
  | some (JValue.obj d) =>
    obtain ⟨ci, rqOpt, hrq, hmvf⟩ := Click.from_dict_obj_inv h
    exact (Click.mvf_ok hmvf).1

theorem Click.to_dict_fields (c : Click) :
    dget (Click.to_dict c) "clicked_items" = some (JValue.obj c.clicked_items.data)
    ∧ dget (Click.to_dict c) "event_name" = some (JValue.str c.event_name)
    ∧ dget (Click.to_dict c) "event_type" = some (JValue.str c.event_type)
    ∧ dget (Click.to_dict c) "is_conversion" = (match c.is_conversion with
        | some (some b) => some (JValue.bool b)
        | some none => some JValue.null
        | none => none)
    ∧ dget (Click.to_dict c) "request" = (match c.request with
        | some (some r) => some (JValue.obj r.data)
        | some none => some JValue.null
        | none => none)
    ∧ dget (Click.to_dict c) "user_id" = (match c.user_id with
        | some (some s) => some (JValue.str s)
        | some none => some JValue.null
        | none => none) := by
  obtain ⟨ci, en, et, ic, rq, ui⟩ := c
  rcases ic with _ | (_ | b) <;> rcases rq with _ | (_ | r) <;> rcases ui with _ | (_ | u) <;>
    exact ⟨rfl, rfl, rfl, rfl, rfl, rfl⟩

end Trieve

namespace Trieve

/-- Claim C1, counterexample: the round trip `from_dict (to_dict x)` is
not the identity on tri-state presence.  For the record whose optional
fields were never supplied, the round trip yields the record whose
optional fields are all explicitly set to null — a different record. -/
theorem c1_roundtrip_counterexample :
    Click.from_dict (some (JValue.obj (Click.to_dict exUnset))) = Except.ok (some exAllNull)
    ∧ Click.from_dict (some (JValue.obj (Click.to_dict exUnset)))
        ≠ Except.ok (some exUnset) := by
  constructor
  · decide
  · decide

/-- Claim C1 as amended: for every valid `Click` x, the round trip
`from_dict (to_dict x)` reproduces every field value, and preserves the
tri-state presence of each optional field that was supplied (explicit
null and concrete values round-trip); an optional field that was never
supplied comes back explicitly set to null instead of unset. -/
theorem c1_roundtrip_amended (x : Click) (h : x.event_type = "click") :
    Click.from_dict (some (JValue.obj (Click.to_dict x))) =
      Except.ok (some { x with is_conversion := some x.is_conversion.join,
                               request := some x.request.join,
                               user_id := some x.user_id.join }) := by
  obtain ⟨ci, en, et, ic, rq, ui⟩ := x
  subst h
  rcases ic with _ | (_ | b) <;> rcases rq with _ | (_ | r) <;> rcases ui with _ | (_ | u) <;>
    rfl

/-- Witness for the amended claim C1, at a record with all optional
fields holding concrete values (for which the round trip is exactly the
identity). -/
theorem c1_roundtrip_witness :
    exVals.event_type = "click"
    ∧ Click.from_dict (some (JValue.obj (Click.to_dict exVals))) =
        Except.ok (some { exVals with is_conversion := some exVals.is_conversion.join,
                                      request := some exVals.request.join,
                                      user_id := some exVals.user_id.join }) :=
  ⟨rfl, c1_roundtrip_amended exVals rfl⟩

/-- Claim C2: `to_dict` obeys the per-field rule — `clicked_items` is
always present, bound to the nested `to_dict` result and never to raw
null; each of `is_conversion`, `request`, `user_id` is omitted when
never supplied, bound to null when explicitly supplied as null, and
bound to its (nested `to_dict` for `request`) value otherwise. -/
theorem c2_to_dict_per_field (c : Click) :
    dget (Click.to_dict c) "clicked_items" = some (ChunkWithPosition.to_dict c.clicked_items)
    ∧ dget (Click.to_dict c) "clicked_items" ≠ some JValue.null
    ∧ dget (Click.to_dict c) "is_conversion" = (match c.is_conversion with
        | some (some b) => some (JValue.bool b)
        | some none => some JValue.null
        | none => none)
    ∧ dget (Click.to_dict c) "request" = (match c.request with
        | some (some r) => some (RequestInfo.to_dict r)
        | some none => some JValue.null
        | none => none)
    ∧ dget (Click.to_dict c) "user_id" = (match c.user_id with
        | some (some s) => some (JValue.str s)
        | some none => some JValue.null
        | none => none) := by
  obtain ⟨h1, h2, h3, h4, h5, h6⟩ := Click.to_dict_fields c
  refine ⟨h1, ?_, h4, h5, h6⟩
  rw [h1]
  simp [ChunkWithPosition.to_dict]

/-- Claim C3: constructing with `event_type ≠ "click"` always fails
with the enum-violation error, whose message names the allowed set
`('click')`; constructing with `event_type = "click"` always succeeds
(the remaining required fields being well-typed values). -/
theorem c3_enum_enforcement (ci : ChunkWithPosition) (en et : String)
    (ic : Option (Option Bool)) (rq : Option (Option RequestInfo))
    (ui : Option (Option String)) :
    (et ≠ "click" →
      Click.construct ci en et ic rq ui
          = Except.error [fieldErr "event_type" Click.enumErrMsg]
      ∧ List.IsInfix (sq ++ "click" ++ sq).data Click.enumErrMsg.data)
    ∧ (et = "click" →
      Click.construct ci en et ic rq ui = Except.ok ⟨ci, en, et, ic, rq, ui⟩) := by
  constructor
  · intro hne
    refine ⟨?_, by decide⟩
    unfold Click.construct Click.event_type_validate_enum
    rw [if_neg (by simpa using hne)]
  · intro he
    subst he
    rfl

/-- Witness for claim C3: the construction fails at `"clack"` and
succeeds at `"click"`. -/
theorem c3_enum_witness :
    Click.construct exChunk "e" "clack" none none none
        = Except.error [fieldErr "event_type" Click.enumErrMsg]
    ∧ Click.construct exChunk "e" "click" none none none
        = Except.ok ⟨exChunk, "e", "click", none, none, none⟩ :=
  ⟨((c3_enum_enforcement exChunk "e" "clack" none none none).1 (by decide)).1,
   (c3_enum_enforcement exChunk "e" "click" none none none).2 rfl⟩

/-- Claim C4: every `Click` reachable through the public operations —
direct construction, `from_dict`, `from_json`, and the re-validated
field reassignments — has `event_type = "click"`. -/
theorem c4_event_type_invariant (c : Click) (h : Click.Reachable c) :
    c.event_type = "click" := by
  induction h with
  | construct ci en et ic rq ui c hc =>
    unfold Click.construct at hc
    split at hc
    · rename_i t ht
      have := Except.ok.inj hc
      subst this
      exact Click.enum_ok ht
    · exact absurd hc (by simp)
  | from_dict o c h => exact Click.from_dict_ok_et h
  | from_json s c h =>
    unfold Click.from_json at h
    split at h
    · exact absurd h (by simp)
    · exact Click.from_dict_ok_et h
  | set_event_type c v c2 hr hset ih =>
    unfold Click.set_event_type at hset
    split at hset
    · rename_i t ht
      have := Except.ok.inj hset
      subst this
      exact Click.enum_ok ht
    · exact absurd hset (by simp)
  | set_event_name c v hr ih => exact ih
  | set_clicked_items c v hr ih => exact ih
  | set_is_conversion c v hr ih => exact ih
  | set_request c v hr ih => exact ih
  | set_user_id c v hr ih => exact ih

/-- Witness for claim C4 at a concretely constructed record. -/
theorem c4_event_type_witness : exUnset.event_type = "click" :=
  c4_event_type_invariant exUnset
    (Click.Reachable.construct exChunk "search_click" "click" none none none exUnset rfl)

/-- Claim C5: `from_dict None` returns no value and raises no error. -/
theorem c5_from_dict_none : Click.from_dict none = Except.ok none := rfl

/-- Claim C6: `from_dict` on the empty mapping fails with a validation
error identifying the three missing required fields (`clicked_items`,
`event_name`, `event_type`), producing no record. -/
theorem c6_from_dict_empty :
    Click.from_dict (some (JValue.obj [])) =
      Except.error [fieldErr "clicked_items" noneNotAllowedMsg,
                    fieldErr "event_name" strRequiredMsg,
                    fieldErr "event_type" strRequiredMsg] := by
  decide

/-- Claim C7: `to_json` is exactly the JSON-text serialization of the
mapping produced by `to_dict`, with no further semantics. -/
theorem c7_to_json_refines_to_dict (c : Click) :
    Click.to_json c = JValue.dumps (JValue.obj (Click.to_dict c)) := rfl

/-- Claim C8: `from_json` first parses the text and then delegates to
`from_dict` — on well-formed input it returns `from_dict` of the parsed
value, and on malformed input the parser's error propagates unchanged. -/
theorem c8_from_json_delegates (s : String) :
    (∀ v, json_loads s = Except.ok v → Click.from_json s = Click.from_dict (some v))
    ∧ (∀ e, json_loads s = Except.error e → Click.from_json s = Except.error [e]) := by
  constructor
  · intro v hv
    unfold Click.from_json
    rw [hv]
  · intro e he
    unfold Click.from_json
    rw [he]

/-- Witness for claim C8: a well-formed input delegates to `from_dict`
and a malformed one propagates the parse error. -/
theorem c8_from_json_witness :
    Click.from_json "null" = Click.from_dict (some JValue.null)
    ∧ Click.from_json "?" = Except.error ["json_loads: invalid literal"] :=
  ⟨(c8_from_json_delegates "null").1 JValue.null (by decide),
   (c8_from_json_delegates "?").2 "json_loads: invalid literal" (by decide)⟩

/-- Claim C9, counterexample: `to_str` is not the pretty-printed form
of the `to_dict` mapping.  For a record with never-supplied optional
fields, `to_str` prints null entries for them while `to_dict` omits
their keys. -/
theorem c9_to_str_counterexample :
    Click.to_str exUnset ≠ pformat (JValue.obj (Click.to_dict exUnset)) := by
  decide

/-- Claim C9 as amended: `to_str` is the pretty-printed form of the
full field mapping `model_dump(by_alias=True)` — which prints a null
entry for every optional field holding no value, never-supplied or
explicitly null alike — rather than of the `to_dict` mapping. -/
theorem c9_to_str_amended (c : Click) :
    Click.to_str c = pformat (JValue.obj (Click.model_dump_by_alias c)) := rfl

/-- Claim C10: every record `from_dict` accepts has all its optional
fields marked as explicitly set, and an optional key absent from the
input dict is indistinguishable from one explicitly bound to null: the
field comes back explicitly-null and a subsequent `to_dict` emits the
key bound to null instead of omitting it. -/
theorem c10_from_dict_sets_all_fields (d : List (String × JValue)) (c : Click)
    (h : Click.from_dict (some (JValue.obj d)) = Except.ok (some c)) :
    (∃ v, c.is_conversion = some v) ∧ (∃ v, c.request = some v) ∧ (∃ v, c.user_id = some v)
    ∧ (pyGet d "is_conversion" = none →
        c.is_conversion = some none
        ∧ dget (Click.to_dict c) "is_conversion" = some JValue.null)
    ∧ (pyGet d "request" = none →
        c.request = some none
        ∧ dget (Click.to_dict c) "request" = some JValue.null)
    ∧ (pyGet d "user_id" = none →
        c.user_id = some none
        ∧ dget (Click.to_dict c) "user_id" = some JValue.null) := by
  obtain ⟨ci, rqOpt, hrq, hmvf⟩ := Click.from_dict_obj_inv h
  obtain ⟨het, hreq, hex1, hex2, hicn, huin⟩ := Click.mvf_ok hmvf
  obtain ⟨t1, t2, t3, t4, t5, t6⟩ := Click.to_dict_fields c
  refine ⟨hex1, ⟨rqOpt, hreq⟩, hex2, ?_, ?_, ?_⟩
  · intro hn
    have hv := hicn hn
    refine ⟨hv, ?_⟩
    rw [t4, hv]
  · intro hn
    have hv : c.request = some none := by rw [hreq, hrq hn]
    refine ⟨hv, ?_⟩
    rw [t5, hv]
  · intro hn
    have hv := huin hn
    refine ⟨hv, ?_⟩
    rw [t6, hv]

/-- Witness for claim C10, at an input dict carrying only the required
keys. -/
theorem c10_from_dict_witness :
    (∃ v, exFromDict.is_conversion = some v) ∧ (∃ v, exFromDict.request = some v)
    ∧ (∃ v, exFromDict.user_id = some v)
    ∧ (pyGet exDict "is_conversion" = none →
        exFromDict.is_conversion = some none
        ∧ dget (Click.to_dict exFromDict) "is_conversion" = some JValue.null)
    ∧ (pyGet exDict "request" = none →
        exFromDict.request = some none
        ∧ dget (Click.to_dict exFromDict) "request" = some JValue.null)
    ∧ (pyGet exDict "user_id" = none →
        exFromDict.user_id = some none
        ∧ dget (Click.to_dict exFromDict) "user_id" = some JValue.null) :=
  c10_from_dict_sets_all_fields exDict exFromDict (by decide)

end Trieve
